import Mathlib

/-!
Verification of `habermas_machine/llm_client/poe_client.py`.

Shallow embedding: text is `List Char` (`Str`); the remote transport is a
function from the outgoing request to either a raised error or a response
envelope; mutation of the client object is explicit state passing; the
side effects of one call (remote requests issued, sleeps performed) are
returned as an explicit log.

The source file is a half-migrated revision and does not parse as written
(a missing comma after `model=self._model_name` in the `create` call, and
a reference to `openai.OpenAI` although only `OpenAI` is imported).  The
embedding follows the evident intended reading of those two slips: the
`create` call takes the keyword arguments `model` and `messages`, and the
constructor builds the transport handle from the imported constructor.
The substantive behaviour of every line is embedded as written; in
particular the success path of `sample_text` binds the WHOLE response
envelope to `response_text` (it never reads `choices[0].message.content`)
and then hands that non-string value to `utils.truncate`, which is
recorded faithfully by the `CallResult.illTypedTruncate` constructor.

`habermas_machine/llm_client/utils.py` (the `truncate` collaborator) and
`base_client.py` are not part of the sources; `truncate` is modelled from
the specification's collaborator contract, as marked on its doc comment.
-/

namespace Poe

/-- Text is modelled as a list of characters, so that truncation indices
are plain positions. -/
abbrev Str := List Char

/-- Errors a Python call can raise; only the constructor distinguishing
the missing-credential `EnvironmentError` matters, every other exception
is opaque. -/
inductive PyError where
  | environmentError (msg : String)
  | other (msg : String)
deriving DecidableEq

/-- The transport handle built in `__init__`:
`OpenAI(api_key=os.getenv("POE_API_KEY"), base_url="https://api.poe.com/v1")`. -/
structure OpenAIClient where
  api_key : Option Str
  base_url : Str
deriving DecidableEq

/-- The state of a `PoeClient` instance: its five configuration fields and
the mutable call counter, exactly the attributes assigned in `__init__`. -/
structure PoeClient where
  _model_name : Str
  _api_key : Str
  _sleep_periodically : Bool
  _calls_between_sleeping : Nat
  _n_calls : Nat
  _client : OpenAIClient
deriving DecidableEq

/-- One `{role, content}` pair of the outgoing `messages` list. -/
structure ChatMessage where
  role : Str
  content : Str
deriving DecidableEq

/-- The outgoing chat-completion request body.  Optional fields that the
caller may omit are `Option`s; `none` means the field is absent from the
request. -/
structure Request where
  model : Str
  messages : List ChatMessage
  temperature : Option Rat
  max_tokens : Option Nat
  stop : Option (List Str)
  stream : Option Bool
deriving DecidableEq

/-- The `message` object of one choice of the response envelope; its
`content` may be null. -/
structure RespMessage where
  content : Option Str
deriving DecidableEq

/-- One element of the `choices` array of the response envelope. -/
structure RespChoice where
  message : RespMessage
deriving DecidableEq

/-- The response envelope returned by `chat.completions.create`. -/
structure Response where
  choices : List RespChoice
deriving DecidableEq

/-- The value `sample_text` hands back to its caller.  `returns s` is a
normal return of the string `s`.  `illTypedTruncate r delims` records the
success path of the source: `response_text` is bound to the whole
envelope `r` (no text is ever extracted from it) and the final statement
is `utils.truncate(response_text, delimiters=terminators)` — an
application of the string-only collaborator to a non-string, outside its
contract, so no string value can be ascribed to it. -/
inductive CallResult where
  | returns (s : Str)
  | illTypedTruncate (r : Response) (delims : List Str)
deriving DecidableEq

/-- Observable side effects of one call: the remote requests issued (in
order) and the sleep durations performed.  The `print` logging statements
of the source are not modelled. -/
structure Effects where
  requests : List Request
  sleeps : List Nat
deriving DecidableEq

/-- Result of one `sample_text` invocation: returned value, updated
instance state, side-effect log. -/
structure SampleOutcome where
  result : CallResult
  client : PoeClient
  effects : Effects
deriving DecidableEq

/-- Result of running `__init__`: either the constructed instance or the
raised error, together with the side-effect log of construction. -/
structure InitOutcome where
  result : Except PyError PoeClient
  effects : Effects

/-- The fixed environment-variable name `POE_API_KEY`. -/
def keyName : Str := "POE_API_KEY".toList

/-- The remediation message of the `EnvironmentError` raised by
`__init__` when the credential is absent. -/
def envErrMsg : String :=
  "The 'POE_API_KEY' environment variable is not set. Please set it to your Poe 'p-b' cookie value."

/-- Shallow embedding of `PoeClient.__init__`.  `env` is the process
environment (`os.environ` / `os.getenv`).  Reading a missing key raises
`KeyError`, which the source catches and converts to an `EnvironmentError`
carrying `envErrMsg`.  Otherwise the five attributes are assigned and the
transport handle is built from the imported constructor (a pure object
construction; the constructor contains no transport call, hence
`effects.requests = []` on every path). -/
def initClient (env : Str → Option Str) (model_name : Str)
    (sleep_periodically : Bool) : InitOutcome :=
  match env keyName with
  | none =>
      { result := Except.error (PyError.environmentError envErrMsg)
        effects := { requests := [], sleeps := [] } }
  | some key =>
      { result := Except.ok
          { _model_name := model_name
            _api_key := key
            _sleep_periodically := sleep_periodically
            _calls_between_sleeping := 10
            _n_calls := 0
            _client := { api_key := env keyName
                         base_url := "https://api.poe.com/v1".toList } }
        effects := { requests := [], sleeps := [] } }

/-- The outgoing request built by the source's `create` call: only the
keyword arguments `model` and `messages` are supplied, so every optional
field of the request body is absent. -/
def buildRequest (c : PoeClient) (prompt : Str) : Request :=
  { model := c._model_name
    messages := [ { role := "system".toList
                    content := "You are a helpful assistant.".toList }
                , { role := "user".toList, content := prompt } ]
    temperature := none
    max_tokens := none
    stop := none
    stream := none }

/-- The rate-limiting block of `sample_text`, evaluated after the
increment: `if self._sleep_periodically and (self._n_calls %
self._calls_between_sleeping == 0): time.sleep(10)`.  The argument `c` is
the pre-increment state, so the incremented counter is `c._n_calls + 1`. -/
def pacingSleeps (c : PoeClient) : List Nat :=
  if c._sleep_periodically && ((c._n_calls + 1) % c._calls_between_sleeping == 0)
  then [10] else []

/-- Shallow embedding of `PoeClient.sample_text`.  The parameters
`max_tokens`, `temperature`, `timeout` and `seed` are `del`eted by the
source before any use, so the body never consults them.  The counter is
incremented and the pacing block runs before the remote call.  The single
transport call `self._client.chat.completions.create(model=...,
messages=[...])` is `transport` applied to `buildRequest c prompt`; if it
raises, the `except Exception` clause logs and returns `''` (no exception
can escape, since every statement after the `try` block is
exception-free apart from the final `truncate` application, whose
ill-typed argument is recorded in the result); if it returns an envelope
`r`, the source binds `r` itself to `response_text` and returns
`utils.truncate(response_text, delimiters=terminators)`. -/
def sample_text (c : PoeClient) (prompt : Str) (max_tokens : Nat)
    (terminators : List Str) (temperature : Rat) (timeout : Rat)
    (seed : Option Int) (transport : Request → Except PyError Response) :
    SampleOutcome :=
  match transport (buildRequest c prompt) with
  | Except.error _ =>
      { result := CallResult.returns []
        client := { c with _n_calls := c._n_calls + 1 }
        effects := { requests := [buildRequest c prompt], sleeps := pacingSleeps c } }
  | Except.ok r =>
      { result := CallResult.illTypedTruncate r terminators
        client := { c with _n_calls := c._n_calls + 1 }
        effects := { requests := [buildRequest c prompt], sleeps := pacingSleeps c } }

/-- Decides whether the delimiter `d` is a character-for-character prefix
of `t`. -/
def isPref : Str → Str → Bool
  | [], _ => true
  | _ :: _, [] => false
  | a :: d, b :: t => a == b && isPref d t

/-- Some delimiter of `D` occurs in `T` starting at character index `i`. -/
def anyAt (D : List Str) (T : Str) (i : Nat) : Bool :=
  D.any fun d => isPref d (T.drop i)

/-- Left-to-right scan of the text for the earliest character index at
which some delimiter of `D` starts; `none` when no delimiter occurs. -/
def firstHit (D : List Str) : Str → Option Nat
  | [] => if anyAt D [] 0 then some 0 else none
  | a :: t =>
      if anyAt D (a :: t) 0 then some 0
      else (firstHit D t).map (· + 1)

/-- Modelled from the spec: `utils.truncate` (module
`habermas_machine/llm_client/utils.py`, not among the sources) — "a pure
function truncate(text, delimiters) -> text returning the prefix of
`text` up to the earliest-occurring delimiter, or the original text if
none occur; must handle an empty delimiter set as a no-op." -/
def truncate (text : Str) (delimiters : List Str) : Str :=
  match firstHit delimiters text with
  | none => text
  | some i => text.take i

/-- Modelled from the spec: the response-extraction step of `sample_text`
("text extracted from `choices[0].message.content`"; an absent envelope,
a missing `choices` list, or null content each yield the empty string).
The source's success path omits this step entirely. -/
def extractContent (r : Option Response) : Str :=
  match r with
  | none => []
  | some resp =>
      match resp.choices with
      | [] => []
      | ch :: _ =>
          match ch.message.content with
          | none => []
          | some s => s

/-- Modelled from the spec: the `sample_text` pipeline as specified —
identical to the source embedding except that the success path extracts
`choices[0].message.content` and truncates that string. -/
def sample_text_spec (c : PoeClient) (prompt : Str) (terminators : List Str)
    (transport : Request → Except PyError Response) : SampleOutcome :=
  match transport (buildRequest c prompt) with
  | Except.error _ =>
      { result := CallResult.returns []
        client := { c with _n_calls := c._n_calls + 1 }
        effects := { requests := [buildRequest c prompt], sleeps := pacingSleeps c } }
  | Except.ok r =>
      { result := CallResult.returns (truncate (extractContent (some r)) terminators)
        client := { c with _n_calls := c._n_calls + 1 }
        effects := { requests := [buildRequest c prompt], sleeps := pacingSleeps c } }

/-- A concrete client instance, as `__init__` would build it with the
credential `"k"` and pacing disabled. -/
def pc0 : PoeClient :=
  { _model_name := "Claude-3-Opus".toList
    _api_key := "k".toList
    _sleep_periodically := false
    _calls_between_sleeping := 10
    _n_calls := 0
    _client := { api_key := some ("k".toList)
                 base_url := "https://api.poe.com/v1".toList } }

/-- The client `pc0` with pacing enabled and nine calls already made. -/
def pc9 : PoeClient :=
  { pc0 with _sleep_periodically := true, _n_calls := 9 }

/-- A well-formed success response whose single choice carries the
content `"hello"`. -/
def respHello : Response :=
  { choices := [ { message := { content := some ("hello".toList) } } ] }

/-- A well-formed success response whose single choice carries the
content `"abXc"`, which contains the delimiter `"X"` at index 2. -/
def respAbXc : Response :=
  { choices := [ { message := { content := some ("abXc".toList) } } ] }

/-- Lemma: the empty delimiter is a prefix of everything. -/
theorem isPref_nil (t : Str) : isPref [] t = true := rfl

/-- Lemma: `isPref d t` holds exactly when `t` starts with `d`. -/
theorem isPref_iff_append (d t : Str) : isPref d t = true ↔ ∃ u, t = d ++ u := by
  induction d generalizing t with
  | nil => simp [isPref]
  | cons a d ih =>
      cases t with
      | nil => simp [isPref]
      | cons b t =>
          simp only [isPref, Bool.and_eq_true, beq_iff_eq, ih,
            List.cons_append, List.cons.injEq]
          constructor
          · rintro ⟨rfl, u, rfl⟩
            exact ⟨u, rfl, rfl⟩
          · rintro ⟨u, rfl, rfl⟩
            exact ⟨rfl, u, rfl⟩

/-- Lemma: a prefix of a `take` of a list is a prefix of the list. -/
theorem isPref_of_take (d l : Str) (n : Nat) (h : isPref d (l.take n) = true) :
    isPref d l = true := by
  rcases (isPref_iff_append d (l.take n)).1 h with ⟨u, hu⟩
  refine (isPref_iff_append d l).2 ⟨u ++ l.drop n, ?_⟩
  rw [← List.append_assoc, ← hu, List.take_append_drop]

/-- Lemma: on the empty text, the position scanned is irrelevant. -/
theorem anyAt_nil (D : List Str) (i : Nat) : anyAt D [] i = anyAt D [] 0 := by
  simp [anyAt, List.drop_nil]

/-- Lemma: if no delimiter occurs at any position, the scan returns none. -/
theorem firstHit_none_of_all (D : List Str) (T : Str)
    (h : ∀ i, anyAt D T i = false) : firstHit D T = none := by
  induction T with
  | nil => simp [firstHit, h 0]
  | cons a t ih =>
      have ht : ∀ i, anyAt D t i = false := fun i => h (i + 1)
      simp [firstHit, h 0, ih ht]

/-- Lemma: if the scan returns none, no delimiter occurs at any position. -/
theorem anyAt_false_of_firstHit_none (D : List Str) (T : Str)
    (h : firstHit D T = none) : ∀ i, anyAt D T i = false := by
  induction T with
  | nil =>
      intro i
      rw [anyAt_nil D i]
      by_contra hne
      rw [Bool.not_eq_false] at hne
      simp [firstHit, hne] at h
  | cons a t ih =>
      intro i
      by_cases h0 : anyAt D (a :: t) 0 = true
      · simp [firstHit, h0] at h
      · rw [Bool.not_eq_true] at h0
        have ht : firstHit D t = none := by
          simpa [firstHit, h0] using h
        match i with
        | 0 => exact h0
        | i + 1 => exact ih ht i

/-- Lemma: the scan returns the position of an occurrence, and it is the
least one. -/
theorem firstHit_some_spec (D : List Str) :
    ∀ (T : Str) (i : Nat), firstHit D T = some i →
      anyAt D T i = true ∧ ∀ j, j < i → anyAt D T j = false := by
  intro T
  induction T with
  | nil =>
      intro i h
      by_cases h0 : anyAt D [] 0 = true
      · simp only [firstHit, h0, if_true, Option.some.injEq] at h
        subst h
        exact ⟨h0, fun j hj => absurd hj (Nat.not_lt_zero j)⟩
      · rw [Bool.not_eq_true] at h0
        simp [firstHit, h0] at h
  | cons a t ih =>
      intro i h
      by_cases h0 : anyAt D (a :: t) 0 = true
      · simp only [firstHit, h0, if_true, Option.some.injEq] at h
        subst h
        exact ⟨h0, fun j hj => absurd hj (Nat.not_lt_zero j)⟩
      · rw [Bool.not_eq_true] at h0
        simp only [firstHit, h0, Bool.false_eq_true, if_false,
          Option.map_eq_some'] at h
        rcases h with ⟨k, hk, rfl⟩
        rcases ih k hk with ⟨hk1, hk2⟩
        refine ⟨hk1, ?_⟩
        intro j hj
        match j with
        | 0 => exact h0
        | j + 1 => exact hk2 j (Nat.lt_of_succ_lt_succ hj)

/-- C1: for every prompt and every option values, if the remote transport
call raises any exception, `sample_text` returns the empty string; the
result is a normal `returns` value, so nothing is propagated or re-raised
to the caller. -/
theorem sample_text_transport_error_returns_empty
    (c : PoeClient) (prompt : Str) (mt : Nat) (D : List Str)
    (temp tout : Rat) (sd : Option Int)
    (transport : Request → Except PyError Response) (e : PyError)
    (h : transport (buildRequest c prompt) = Except.error e) :
    (sample_text c prompt mt D temp tout sd transport).result
      = CallResult.returns [] := by
  unfold sample_text
  rw [h]

/-- C1 witness: a concrete transport that raises yields the empty string. -/
theorem sample_text_transport_error_returns_empty_witness :
    (sample_text pc0 ("hi".toList) 16 [] 1 1 none
        (fun _ => Except.error (PyError.other "boom"))).result
      = CallResult.returns [] :=
  sample_text_transport_error_returns_empty pc0 ("hi".toList) 16 [] 1 1 none
    (fun _ => Except.error (PyError.other "boom")) (PyError.other "boom") rfl

/-- C2: code_bug evidence — at a well-formed success response the code
binds the whole envelope to `response_text` and hands it to `truncate`
(the `illTypedTruncate` outcome), never reading
`choices[0].message.content`; the claimed extraction (modelled from the
spec as `extractContent`) would have yielded the text "hello". -/
theorem sample_text_success_no_extraction :
    (sample_text pc0 ("hi".toList) 16 ["\n".toList] 1 1 none
        (fun _ => Except.ok respHello)).result
      = CallResult.illTypedTruncate respHello ["\n".toList]
  ∧ (sample_text pc0 ("hi".toList) 16 ["\n".toList] 1 1 none
        (fun _ => Except.ok respHello)).result
      ≠ CallResult.returns ("hello".toList)
  ∧ extractContent (some respHello) = "hello".toList := by
  refine ⟨rfl, ?_, rfl⟩
  intro h
  exact CallResult.noConfusion h

/-- Lemma: for every text T and delimiter set D, the spec-modelled
truncation returns the prefix of T strictly before the earliest
occurrence of any delimiter of D, and returns T unchanged when no
delimiter occurs. -/
theorem truncate_earliest (T : Str) (D : List Str) :
    (∀ i, anyAt D T i = true → (∀ j, j < i → anyAt D T j = false) →
        truncate T D = T.take i)
  ∧ ((∀ i, anyAt D T i = false) → truncate T D = T) := by
  constructor
  · intro i hi hmin
    unfold truncate
    cases hfh : firstHit D T with
    | none =>
        have hfalse := anyAt_false_of_firstHit_none D T hfh i
        rw [hi] at hfalse
        exact Bool.noConfusion hfalse
    | some k =>
        rcases firstHit_some_spec D T k hfh with ⟨hk, hkmin⟩
        have hki : k = i := by
          rcases Nat.lt_trichotomy k i with hlt | heq | hgt
          · have hc := hmin k hlt
            rw [hk] at hc
            exact Bool.noConfusion hc
          · exact heq
          · have hc := hkmin i hgt
            rw [hi] at hc
            exact Bool.noConfusion hc
        rw [hki]
  · intro hall
    unfold truncate
    rw [firstHit_none_of_all D T hall]

/-- Lemma instance: "abXc" with delimiter set containing "X" truncates to
the first two characters; "a" with delimiter "b" is returned unchanged. -/
theorem truncate_earliest_instance :
    truncate ("abXc".toList) ["X".toList] = ("abXc".toList).take 2
  ∧ truncate ("a".toList) ["b".toList] = "a".toList := by
  constructor
  · exact (truncate_earliest ("abXc".toList) ["X".toList]).1 2 (by decide)
      (by intro j hj; interval_cases j <;> decide)
  · refine (truncate_earliest ("a".toList) ["b".toList]).2 ?_
    intro i
    match i with
    | 0 => decide
    | i + 1 =>
        show anyAt ["b".toList] ([] : Str) i = false
        rw [anyAt_nil]
        decide

/-- C3: code_bug evidence — the transport succeeds with provider text
"abXc" and the terminator set contains "X", so the claim says
`sample_text` returns "ab", the prefix strictly before the earliest
delimiter occurrence; but the code hands the whole envelope, never a raw
result text, to `truncate` (the same envelope-binding defect evidenced
for C2), so the prefix is not returned.  The spec-modelled pipeline,
whose truncation step satisfies the earliest-occurrence contract
(`truncate_earliest`), does return exactly "ab". -/
theorem sample_text_truncation_not_reached :
    (sample_text pc0 ("hi".toList) 16 ["X".toList] 1 1 none
        (fun _ => Except.ok respAbXc)).result
      ≠ CallResult.returns ("ab".toList)
  ∧ (sample_text pc0 ("hi".toList) 16 ["X".toList] 1 1 none
        (fun _ => Except.ok respAbXc)).result
      = CallResult.illTypedTruncate respAbXc ["X".toList]
  ∧ (sample_text_spec pc0 ("hi".toList) ["X".toList]
        (fun _ => Except.ok respAbXc)).result
      = CallResult.returns ("ab".toList) := by
  refine ⟨?_, rfl, ?_⟩
  · intro h
    exact CallResult.noConfusion h
  · decide

/-- C4: counterexample — temperature 7/10, max_tokens 64 and a nonempty
terminator set are passed, yet the single outgoing request carries no
temperature, no max_tokens and no stop list: contrary to the claim, these
options are not forwarded in the remote request. -/
theorem options_not_forwarded_counterexample :
    (sample_text pc0 ("hi".toList) 64 [" ".toList] (7/10) 30 none
        (fun _ => Except.ok respHello)).effects.requests
      = [buildRequest pc0 ("hi".toList)]
  ∧ (buildRequest pc0 ("hi".toList)).temperature = none
  ∧ (buildRequest pc0 ("hi".toList)).max_tokens = none
  ∧ (buildRequest pc0 ("hi".toList)).stop = none
  ∧ (buildRequest pc0 ("hi".toList)).temperature ≠ some (7/10) :=
  ⟨rfl, rfl, rfl, rfl, fun h => Option.noConfusion h⟩

/-- C4 amended: the outgoing request carries only the model name and the
two messages (no temperature, max_tokens, stop or stream fields); the
terminator set is applied locally after the response instead of being
forwarded; and the whole outcome of `sample_text` is independent of
`max_tokens`, `temperature`, `timeout` and `seed` — they are accepted but
ignored, so none of them can cause a raise. -/
theorem options_ignored (c : PoeClient) (prompt : Str) (mt mt' : Nat)
    (D : List Str) (temp temp' tout tout' : Rat) (sd sd' : Option Int)
    (transport : Request → Except PyError Response) :
    (sample_text c prompt mt D temp tout sd transport).effects.requests
      = [buildRequest c prompt]
  ∧ sample_text c prompt mt D temp tout sd transport
      = sample_text c prompt mt' D temp' tout' sd' transport := by
  constructor
  · unfold sample_text
    cases transport (buildRequest c prompt) <;> rfl
  · rfl

/-- C5: every invocation increments the call counter by exactly one,
whether the transport succeeds or raises; with pacing enabled and the
batch size 10 fixed by the constructor, the call sleeps for the fixed
10 time units exactly when the incremented counter is a multiple of 10. -/
theorem call_counter_and_pacing
    (c : PoeClient) (prompt : Str) (mt : Nat) (D : List Str)
    (temp tout : Rat) (sd : Option Int)
    (transport : Request → Except PyError Response)
    (hb : c._calls_between_sleeping = 10) :
    (sample_text c prompt mt D temp tout sd transport).client._n_calls
      = c._n_calls + 1
  ∧ (c._sleep_periodically = true →
      ((sample_text c prompt mt D temp tout sd transport).effects.sleeps = [10]
        ↔ (c._n_calls + 1) % 10 = 0)) := by
  have hs : (sample_text c prompt mt D temp tout sd transport).effects.sleeps
      = pacingSleeps c := by
    unfold sample_text
    cases transport (buildRequest c prompt) <;> rfl
  have hn : (sample_text c prompt mt D temp tout sd transport).client._n_calls
      = c._n_calls + 1 := by
    unfold sample_text
    cases transport (buildRequest c prompt) <;> rfl
  refine ⟨hn, ?_⟩
  intro hp
  rw [hs]
  unfold pacingSleeps
  rw [hp, hb]
  by_cases hmod : (c._n_calls + 1) % 10 = 0
  · have hbeq : ((c._n_calls + 1) % 10 == 0) = true := beq_iff_eq.2 hmod
    simp [hbeq, hmod]
  · have hbeq : ((c._n_calls + 1) % 10 == 0) = false :=
      beq_eq_false_iff_ne.2 hmod
    simp [hbeq, hmod]

/-- C5 witness: with pacing enabled and nine prior calls, the tenth call
raises the counter to 10 and sleeps for 10 units. -/
theorem call_counter_and_pacing_witness :
    (sample_text pc9 ("hi".toList) 16 [] 1 1 none
        (fun _ => Except.ok respHello)).client._n_calls = 10
  ∧ (sample_text pc9 ("hi".toList) 16 [] 1 1 none
        (fun _ => Except.ok respHello)).effects.sleeps = [10] := by
  have h := call_counter_and_pacing pc9 ("hi".toList) 16 [] 1 1 none
      (fun _ => Except.ok respHello) rfl
  exact ⟨h.1, (h.2 rfl).2 (by decide)⟩

/-- C6: when the environment lacks POE_API_KEY, construction raises the
EnvironmentError carrying the remediation message, and on every path
construction issues no remote request (no network I/O). -/
theorem init_missing_key (env : Str → Option Str) (mn : Str) (fl : Bool) :
    (env keyName = none →
      (initClient env mn fl).result
        = Except.error (PyError.environmentError envErrMsg))
  ∧ (initClient env mn fl).effects.requests = [] := by
  constructor
  · intro h
    unfold initClient
    rw [h]
  · unfold initClient
    cases env keyName <;> rfl

/-- C6 witness: an empty environment makes construction fail with the
remediation message, and no request is issued. -/
theorem init_missing_key_witness :
    (initClient (fun _ => none) ("m".toList) true).result
      = Except.error (PyError.environmentError envErrMsg)
  ∧ (initClient (fun _ => none) ("m".toList) true).effects.requests = [] :=
  ⟨(init_missing_key (fun _ => none) ("m".toList) true).1 rfl,
   (init_missing_key (fun _ => none) ("m".toList) true).2⟩

/-- C7: code_bug evidence — with an empty terminator set and a transport
succeeding with provider text "hello", the code does not return that text
(it hands the envelope to truncate, never extracting the content), while
the spec-modelled pipeline returns it unmodified. -/
theorem empty_terminators_full_text :
    (sample_text pc0 ("hi".toList) 16 [] 1 1 none
        (fun _ => Except.ok respHello)).result
      ≠ CallResult.returns ("hello".toList)
  ∧ (sample_text_spec pc0 ("hi".toList) []
        (fun _ => Except.ok respHello)).result
      = CallResult.returns ("hello".toList) := by
  constructor
  · intro h
    exact CallResult.noConfusion h
  · rfl

/-- C8: truncation is idempotent — truncating an already-truncated text
with the same delimiter set yields the same text. -/
theorem truncate_idempotent (T : Str) (D : List Str) :
    truncate (truncate T D) D = truncate T D := by
  by_cases hnil : D.any (fun d => isPref d ([] : Str)) = true
  · have h0 : ∀ X : Str, anyAt D X 0 = true := by
      intro X
      rcases List.any_eq_true.1 hnil with ⟨d, hd, hp⟩
      have hdnil : d = [] := by
        cases d with
        | nil => rfl
        | cons a u => simp [isPref] at hp
      refine List.any_eq_true.2 ⟨d, hd, ?_⟩
      rw [hdnil]
      rfl
    have hfh : ∀ X : Str, firstHit D X = some 0 := by
      intro X
      cases X with
      | nil => simp [firstHit, h0 ([] : Str)]
      | cons a t => simp [firstHit, h0 (a :: t)]
    simp [truncate, hfh]
  · rw [Bool.not_eq_true] at hnil
    cases hfh : firstHit D T with
    | none =>
        have hT : truncate T D = T := by
          unfold truncate
          rw [hfh]
        rw [hT, hT]
    | some i =>
        have hTD : truncate T D = T.take i := by
          unfold truncate
          rw [hfh]
        rcases firstHit_some_spec D T i hfh with ⟨_, hmin⟩
        have hnone : firstHit D (T.take i) = none := by
          apply firstHit_none_of_all
          intro j
          by_cases hj : j < i
          · by_contra hne
            rw [Bool.not_eq_false] at hne
            rcases List.any_eq_true.1 hne with ⟨d, hd, hp⟩
            rw [List.drop_take] at hp
            have hdT : isPref d (T.drop j) = true :=
              isPref_of_take d (T.drop j) (i - j) hp
            have hj' : anyAt D T j = true := List.any_eq_true.2 ⟨d, hd, hdT⟩
            rw [hmin j hj] at hj'
            exact Bool.noConfusion hj'
          · have hlen : (T.take i).length ≤ j := by
              rw [List.length_take]
              exact le_trans (min_le_left i T.length) (Nat.le_of_not_lt hj)
            unfold anyAt
            rw [List.drop_eq_nil_of_le hlen]
            exact hnil
        rw [hTD]
        unfold truncate
        rw [hnone]

/-- C9: counterexample — the fixed system instruction of the single
outgoing request is the literal "You are a helpful assistant." (capital
Y, trailing full stop), not the claimed "you are a helpful assistant". -/
theorem system_message_literal_counterexample :
    (sample_text pc0 ("hi".toList) 16 [] 1 1 none
        (fun _ => Except.ok respHello)).effects.requests
      = [buildRequest pc0 ("hi".toList)]
  ∧ (buildRequest pc0 ("hi".toList)).messages
      = [ { role := "system".toList
            content := "You are a helpful assistant.".toList }
        , { role := "user".toList, content := "hi".toList } ]
  ∧ ("You are a helpful assistant.".toList : Str)
      ≠ "you are a helpful assistant".toList := by
  refine ⟨rfl, rfl, ?_⟩
  decide

/-- C9 amended: every invocation issues exactly one request, whose
message list is exactly the fixed system message "You are a helpful
assistant." followed by the single user message carrying the caller's
prompt; the request depends only on the model name and the prompt, so no
conversation history is carried across calls. -/
theorem single_request_fixed_framing (c : PoeClient) (prompt : Str)
    (mt : Nat) (D : List Str) (temp tout : Rat) (sd : Option Int)
    (transport : Request → Except PyError Response) :
    (sample_text c prompt mt D temp tout sd transport).effects.requests
      = [ { model := c._model_name
            messages := [ { role := "system".toList
                            content := "You are a helpful assistant.".toList }
                        , { role := "user".toList, content := prompt } ]
            temperature := none
            max_tokens := none
            stop := none
            stream := none } ] := by
  unfold sample_text
  cases transport (buildRequest c prompt) <;> rfl

/-- C10: frame — whether the transport succeeds or raises, `sample_text`
leaves `_model_name`, `_api_key`, `_sleep_periodically`,
`_calls_between_sleeping` and `_client` unchanged; only the call counter
is mutated. -/
theorem sample_text_frame (c : PoeClient) (prompt : Str) (mt : Nat)
    (D : List Str) (temp tout : Rat) (sd : Option Int)
    (transport : Request → Except PyError Response) :
    (sample_text c prompt mt D temp tout sd transport).client._model_name
      = c._model_name
  ∧ (sample_text c prompt mt D temp tout sd transport).client._api_key
      = c._api_key
  ∧ (sample_text c prompt mt D temp tout sd transport).client._sleep_periodically
      = c._sleep_periodically
  ∧ (sample_text c prompt mt D temp tout sd transport).client._calls_between_sleeping
      = c._calls_between_sleeping
  ∧ (sample_text c prompt mt D temp tout sd transport).client._client
      = c._client := by
  unfold sample_text
  cases transport (buildRequest c prompt) <;> exact ⟨rfl, rfl, rfl, rfl, rfl⟩

/-- Scenario from the specification: "Hello there. STOP now ignore this"
with a terminator set containing "STOP" truncates to "Hello there. ". -/
theorem truncate_scenario :
    truncate ("Hello there. STOP now ignore this".toList) ["STOP".toList]
      = ("Hello there. ".toList) := by
  decide

end Poe
